import Mathlib

/-!
Verification of the futago Gemini client (src/main.rs) against its
natural-language specification.

The model is a shallow embedding: the TLS stream is a `List Char` of the
bytes still unread (the Rust code only ever reads UTF-8 text from it);
reading consumes a prefix of the list.  Rust functions that can panic are
embedded as `Except`-returning functions whose error constructors name the
panic site.  All definitions are translated from src/main.rs; the only
definitions taken from the spec instead of the source are marked
`Modelled from the spec:` in their doc comment.
-/

set_option maxRecDepth 4096

/-- The `StatusCodes` enum of src/main.rs (lines 16-43): the 18 named
Gemini status variants. -/
inductive StatusCodes
  | Input
  | SensitiveInput
  | Success
  | RedirectTemporary
  | RedirectPermanent
  | TemporaryFailure
  | ServerUnavailable
  | CgiError
  | ProxyError
  | SlowDown
  | PermanentFailure
  | NotFound
  | Gone
  | ProxyRequestRefused
  | BadRequest
  | ClientCertificateRequired
  | CertificateNotAuthorised
  | CertificateNotValid
deriving DecidableEq, Repr, Fintype

/-- The `repr(u8)` discriminant assigned to each variant in src/main.rs
(lines 16-43). -/
def StatusCodes.toU8 : StatusCodes → Nat
  | StatusCodes.Input => 10
  | StatusCodes.SensitiveInput => 11
  | StatusCodes.Success => 20
  | StatusCodes.RedirectTemporary => 30
  | StatusCodes.RedirectPermanent => 31
  | StatusCodes.TemporaryFailure => 40
  | StatusCodes.ServerUnavailable => 41
  | StatusCodes.CgiError => 42
  | StatusCodes.ProxyError => 43
  | StatusCodes.SlowDown => 44
  | StatusCodes.PermanentFailure => 50
  | StatusCodes.NotFound => 51
  | StatusCodes.Gone => 52
  | StatusCodes.ProxyRequestRefused => 53
  | StatusCodes.BadRequest => 59
  | StatusCodes.ClientCertificateRequired => 60
  | StatusCodes.CertificateNotAuthorised => 61
  | StatusCodes.CertificateNotValid => 62

/-- The `impl Into<StatusCodes> for u8` conversion (src/main.rs lines 45-75).  The Rust
code panics with the message "unknown status code" on any unmatched
integer; the panic is embedded as `Except.error` carrying that message. -/
def u8IntoStatusCodes (n : Nat) : Except String StatusCodes :=
  match n with
  | 10 => Except.ok StatusCodes.Input
  | 11 => Except.ok StatusCodes.SensitiveInput
  | 20 => Except.ok StatusCodes.Success
  | 30 => Except.ok StatusCodes.RedirectTemporary
  | 31 => Except.ok StatusCodes.RedirectPermanent
  | 40 => Except.ok StatusCodes.TemporaryFailure
  | 41 => Except.ok StatusCodes.ServerUnavailable
  | 42 => Except.ok StatusCodes.CgiError
  | 43 => Except.ok StatusCodes.ProxyError
  | 44 => Except.ok StatusCodes.SlowDown
  | 50 => Except.ok StatusCodes.PermanentFailure
  | 51 => Except.ok StatusCodes.NotFound
  | 52 => Except.ok StatusCodes.Gone
  | 53 => Except.ok StatusCodes.ProxyRequestRefused
  | 59 => Except.ok StatusCodes.BadRequest
  | 60 => Except.ok StatusCodes.ClientCertificateRequired
  | 61 => Except.ok StatusCodes.CertificateNotAuthorised
  | 62 => Except.ok StatusCodes.CertificateNotValid
  | _ => Except.error "unknown status code"

instance instDecEqExcept {ε α : Type} [DecidableEq ε] [DecidableEq α] : DecidableEq (Except ε α)
  | Except.error x, Except.error y =>
    if h : x = y then isTrue (by subst h; rfl) else isFalse (by intro e; cases e; exact h rfl)
  | Except.error _, Except.ok _ => isFalse (by intro e; cases e)
  | Except.ok _, Except.error _ => isFalse (by intro e; cases e)
  | Except.ok x, Except.ok y =>
    if h : x = y then isTrue (by subst h; rfl) else isFalse (by intro e; cases e; exact h rfl)

/-- The raw integer values of the 18 defined status codes, in source
order (src/main.rs lines 16-43). -/
def definedCodes : List Nat :=
  [10, 11, 20, 30, 31, 40, 41, 42, 43, 44, 50, 51, 52, 53, 59, 60, 61, 62]

/-- The `Response` struct of src/main.rs (lines 9-14). -/
structure Response where
  status : StatusCodes
  meta : String
  body : String
deriving DecidableEq, Repr

/-- The function `build_uri` (src/main.rs lines 95-102).  `domain.starts_with("gemini://")`
is embedded as first-9-characters equality, which is the same predicate on
the character list. -/
def build_uri (domain resource : String) : String :=
  let scheme := if domain.data.take 9 = "gemini://".data then "" else "gemini://"
  scheme ++ domain ++ resource ++ "\r\n"

/-- The panic sites of `read_response_header` (src/main.rs lines 108-120),
each embedded as an error value:
  * `spaceAssertFailed` — the `assert_eq!(space, " ")` panic (line 113);
  * `statusParsePanic` — the `.parse::<u8>().unwrap()` panic (line 116);
  * `unknownStatusPanic` — the `.into()` panic "unknown status code" (line 72);
  * `metaLineMissing` — the `lines().next().unwrap()` panic on `None`
    (line 117, stream already at end-of-stream). -/
inductive ReadError
  | spaceAssertFailed
  | statusParsePanic
  | unknownStatusPanic
  | metaLineMissing
deriving DecidableEq, Repr

/-- The Rust function `str::parse::<u8>` (used at src/main.rs line 116): an optional
leading plus sign, then at least one ASCII digit, value at most 255;
anything else is a parse error (`none`). -/
def parseU8 (s : String) : Option Nat :=
  let cs := s.data
  let digits := if cs.take 1 = ['+'] then cs.drop 1 else cs
  if digits.isEmpty then none
  else if digits.all Char.isDigit then
    let v := digits.foldl (fun a c => a * 10 + (c.toNat - 48)) 0
    if v ≤ 255 then some v else none
  else none

/-- The Rust `Lines` iterator strips a carriage return only when it sits directly
before the terminating newline (used at src/main.rs line 117). -/
def dropTrailingCR (l : List Char) : List Char :=
  if l.getLast? = some '\r' then l.dropLast else l

/-- The call `BufReader::lines().next()` (src/main.rs line 117): `none` when the
stream is already at end-of-stream; otherwise the text up to the first
newline (consuming the newline, stripping a trailing carriage return) or,
when the stream ends before any newline, all remaining text unstripped. -/
def readLine (s : List Char) : Option (String × List Char) :=
  match s with
  | [] => none
  | _ :: _ =>
    let pre := s.takeWhile (fun c => c ≠ '\n')
    match s.dropWhile (fun c => c ≠ '\n') with
    | '\n' :: rest => some (String.mk (dropTrailingCR pre), rest)
    | rest => some (String.mk pre, rest)

/-- The function `read_response_header` (src/main.rs lines 108-120).  `take(2)` /
`take(1)` followed by `read_to_string` read *up to* that many bytes and
succeed even when fewer arrive before end-of-stream, so truncation shows
up only at the space assertion.  The evaluation order of the Rust code is
kept: both reads, then the space assertion, then the status parse, then
the `into` conversion, then the meta line. -/
def read_response_header (s : List Char) : Except ReadError (Response × List Char) :=
  let status_buf := String.mk (s.take 2)
  let s1 := s.drop 2
  let space := String.mk (s1.take 1)
  let s2 := s1.drop 1
  if space = " " then
    match parseU8 status_buf with
    | some n =>
      match u8IntoStatusCodes n with
      | Except.ok st =>
        match readLine s2 with
        | some (meta, rest) => Except.ok (Response.mk st meta "", rest)
        | none => Except.error ReadError.metaLineMissing
      | Except.error _ => Except.error ReadError.unknownStatusPanic
    | none => Except.error ReadError.statusParsePanic
  else Except.error ReadError.spaceAssertFailed

/-- The function `read_response_body` (src/main.rs lines 122-124): `read_to_string`
appends the whole remaining stream to `response.body`, leaving the
stream fully consumed. -/
def read_response_body (s : List Char) (resp : Response) : Response × List Char :=
  (Response.mk resp.status resp.meta (resp.body ++ String.mk s), [])

/-- What each branch of `handle_response_header` / `handle_success`
observably does (src/main.rs lines 126-155): the message printed, or the
panic raised, together with any dynamic data interpolated into it.
`unsupportedMediaTypePanic` is the `assert!` panic at line 127, whose
message is the fixed string "I only know how to handle text MIME types". -/
inductive Outcome
  | printedBody (body : String)
  | unsupportedMediaTypePanic
  | notFoundMsg
  | badRequestMsg
  | redirectMsg (meta : String)
  | tempFailureMsg (meta : String)
  | permFailureMsg (meta : String)
  | unhandledMsg (status : StatusCodes)
deriving DecidableEq, Repr

/-- The meta text (or body text) actually interpolated into the printed
message or panic of an `Outcome`; `none` when the message carries no
dynamic detail. -/
def Outcome.metaDetail : Outcome → Option String
  | Outcome.printedBody b => some b
  | Outcome.redirectMsg m => some m
  | Outcome.tempFailureMsg m => some m
  | Outcome.permFailureMsg m => some m
  | _ => none

/-- The function `handle_success` (src/main.rs lines 126-133): assert the meta starts
with "text/" (panicking otherwise, before any body byte is read), then
read the whole body and print it.  `meta.starts_with("text/")` is embedded
as first-5-characters equality, the same predicate on the character
list. -/
def handle_success (resp : Response) (s : List Char) : Outcome × Response × List Char :=
  if resp.meta.data.take 5 = "text/".data then
    let r := read_response_body s resp
    (Outcome.printedBody r.1.body, r.1, r.2)
  else (Outcome.unsupportedMediaTypePanic, resp, s)

/-- The function `handle_response_header` (src/main.rs lines 135-155), with the match
arms in source order.  Returns the outcome, the response value after the
call, and the still-unread part of the stream. -/
def handle_response_header (resp : Response) (s : List Char) : Outcome × Response × List Char :=
  match resp.status with
  | StatusCodes.Success => handle_success resp s
  | StatusCodes.NotFound => (Outcome.notFoundMsg, resp, s)
  | StatusCodes.BadRequest => (Outcome.badRequestMsg, resp, s)
  | StatusCodes.RedirectPermanent => (Outcome.redirectMsg resp.meta, resp, s)
  | StatusCodes.RedirectTemporary => (Outcome.redirectMsg resp.meta, resp, s)
  | StatusCodes.TemporaryFailure => (Outcome.tempFailureMsg resp.meta, resp, s)
  | StatusCodes.PermanentFailure => (Outcome.permFailureMsg resp.meta, resp, s)
  | st => (Outcome.unhandledMsg st, resp, s)

/-- The response-side of one exchange as main performs it (src/main.rs
lines 178-180): decode the header from the stream, then dispatch on it. -/
def dispatch (s : List Char) : Except ReadError (Outcome × Response × List Char) :=
  match read_response_header s with
  | Except.error e => Except.error e
  | Except.ok (resp, rest) => Except.ok (handle_response_header resp rest)

/-- The statuses of the temporary-failure band (40-44), the defined
permanent-failure band (50-53, 59) and the certificate-error band
(60-62). -/
def failureBand : List StatusCodes :=
  [StatusCodes.TemporaryFailure, StatusCodes.ServerUnavailable, StatusCodes.CgiError,
   StatusCodes.ProxyError, StatusCodes.SlowDown, StatusCodes.PermanentFailure,
   StatusCodes.NotFound, StatusCodes.Gone, StatusCodes.ProxyRequestRefused,
   StatusCodes.BadRequest, StatusCodes.ClientCertificateRequired,
   StatusCodes.CertificateNotAuthorised, StatusCodes.CertificateNotValid]

/-- Number of occurrences of the two-character sequence CR LF in a
character list (scanning every adjacent pair). -/
def countCRLF : List Char → Nat
  | [] => 0
  | [_] => 0
  | a :: b :: rest => (if a = '\r' ∧ b = '\n' then 1 else 0) + countCRLF (b :: rest)

/-- Modelled from the spec: the "trivial line-splitter" half of the
round-trip property (spec section 8) is not part of src/main.rs.  It
strips the final CR LF, strips one leading "gemini://" scheme, and splits
at the first slash into host and resource. -/
def stripSuffixCRLF (cs : List Char) : Option (List Char) :=
  match cs.reverse with
  | '\n' :: '\r' :: rest => some rest.reverse
  | _ => none

/-- Modelled from the spec: removal of one leading "gemini://" scheme by
the trivial line-splitter. -/
def stripSchemeGemini (cs : List Char) : List Char :=
  match cs with
  | 'g' :: 'e' :: 'm' :: 'i' :: 'n' :: 'i' :: ':' :: '/' :: '/' :: rest => rest
  | _ => cs

/-- Modelled from the spec: the trivial line-splitter of the round-trip
property (spec section 8). -/
def splitRequest (line : String) : Option (String × String) :=
  match stripSuffixCRLF line.data with
  | none => none
  | some cs =>
    let cs2 := stripSchemeGemini cs
    some (String.mk (cs2.takeWhile (fun c => c ≠ '/')),
          String.mk (cs2.dropWhile (fun c => c ≠ '/')))

/-! ## Helper lemmas -/

theorem takeWhile_all {α : Type} (p : α → Bool) (l : List α) (h : ∀ a ∈ l, p a = true) :
    l.takeWhile p = l := by
  induction l with
  | nil => rfl
  | cons a t ih =>
    have ha := h a (List.mem_cons_self a t)
    simp [List.takeWhile_cons, ha, ih (fun x hx => h x (List.mem_cons_of_mem a hx))]

theorem dropWhile_all {α : Type} (p : α → Bool) (l : List α) (h : ∀ a ∈ l, p a = true) :
    l.dropWhile p = [] := by
  induction l with
  | nil => rfl
  | cons a t ih =>
    have ha := h a (List.mem_cons_self a t)
    simp [List.dropWhile_cons, ha, ih (fun x hx => h x (List.mem_cons_of_mem a hx))]

theorem takeWhile_append_all {α : Type} (p : α → Bool) (l t : List α)
    (h : ∀ a ∈ l, p a = true) : (l ++ t).takeWhile p = l ++ t.takeWhile p := by
  induction l with
  | nil => rfl
  | cons a l2 ih =>
    have ha := h a (List.mem_cons_self a l2)
    simp [List.takeWhile_cons, ha, ih (fun x hx => h x (List.mem_cons_of_mem a hx))]

theorem dropWhile_append_all {α : Type} (p : α → Bool) (l t : List α)
    (h : ∀ a ∈ l, p a = true) : (l ++ t).dropWhile p = t.dropWhile p := by
  induction l with
  | nil => rfl
  | cons a l2 ih =>
    have ha := h a (List.mem_cons_self a l2)
    simp [List.dropWhile_cons, ha, ih (fun x hx => h x (List.mem_cons_of_mem a hx))]

theorem data_empty : ("" : String).data = [] := rfl

theorem data_crlf : ("\r\n" : String).data = ['\r', '\n'] := rfl

theorem data_gemini : ("gemini://" : String).data =
    ['g', 'e', 'm', 'i', 'n', 'i', ':', '/', '/'] := rfl

theorem build_uri_data (domain resource : String) :
    (build_uri domain resource).data =
      (if domain.data.take 9 = "gemini://".data then [] else "gemini://".data)
        ++ domain.data ++ resource.data ++ ['\r', '\n'] := by
  unfold build_uri
  by_cases h : domain.data.take 9 = "gemini://".data
  · rw [if_pos h, if_pos h]
    simp [String.data_append, data_empty, data_crlf]
  · rw [if_neg h, if_neg h]
    simp [String.data_append, data_crlf]

theorem countCRLF_append_crlf (l : List Char) (h : '\r' ∉ l) :
    countCRLF (l ++ ['\r', '\n']) = 1 := by
  induction l with
  | nil => rfl
  | cons c l ih =>
    have hc : c ≠ '\r' := fun e => h (e ▸ List.mem_cons_self c l)
    have h2 : '\r' ∉ l := fun m => h (List.mem_cons_of_mem c m)
    cases l with
    | nil => simp [countCRLF, hc]
    | cons d l2 =>
      have hih := ih h2
      simp only [List.cons_append] at hih ⊢
      simp [countCRLF, hc, hih]

theorem readLine_no_newline (t : List Char) (ht : t ≠ []) (hn : '\n' ∉ t) :
    readLine t = some (String.mk t, []) := by
  cases t with
  | nil => exact absurd rfl ht
  | cons a t2 =>
    have hall : ∀ c ∈ a :: t2, (fun c => decide (c ≠ '\n')) c = true := by
      intro c hc
      simp only [decide_eq_true_eq]
      intro e
      exact hn (e ▸ hc)
    simp only [readLine]
    rw [takeWhile_all _ _ hall, dropWhile_all _ _ hall]

theorem isDigit_toNat_bounds {c : Char} (h : c.isDigit = true) :
    48 ≤ c.toNat ∧ c.toNat ≤ 57 := by
  simp only [Char.isDigit, Bool.and_eq_true, decide_eq_true_eq] at h
  exact ⟨h.1, h.2⟩

theorem u8Into_of_le_nine {v : Nat} (h : v ≤ 9) :
    u8IntoStatusCodes v = Except.error "unknown status code" := by
  interval_cases v <;> rfl

theorem stripSuffixCRLF_append (l : List Char) :
    stripSuffixCRLF (l ++ ['\r', '\n']) = some l := by
  unfold stripSuffixCRLF
  have h : (l ++ ['\r', '\n']).reverse = '\n' :: '\r' :: l.reverse := by simp
  rw [h]
  show some l.reverse.reverse = some l
  rw [List.reverse_reverse]

theorem stripSchemeGemini_append (cs : List Char) :
    stripSchemeGemini ("gemini://".data ++ cs) = cs := by
  show stripSchemeGemini ('g' :: 'e' :: 'm' :: 'i' :: 'n' :: 'i' :: ':' :: '/' :: '/' :: cs) = cs
  rfl

theorem splitRequest_eq (l : List Char) (line : String) (hl : line.data = l ++ ['\r', '\n']) :
    splitRequest line =
      some (String.mk ((stripSchemeGemini l).takeWhile (fun c => c ≠ '/')),
            String.mk ((stripSchemeGemini l).dropWhile (fun c => c ≠ '/'))) := by
  unfold splitRequest
  rw [hl, stripSuffixCRLF_append]

/-! ## Claim theorems -/

/-- C1: `u8IntoStatusCodes` (the decode boundary `impl Into<StatusCodes> for u8`)
maps each of the 18 defined codes to its named variant — a bijection onto the
variants, since every variant is hit by its own code and the code of the variant
returned for a defined integer is that integer — and every other integer in
[0,99] fails with the "unknown status code" panic, never silently coercing. -/
theorem c1_statuscode_decode_closed :
    (∀ c : StatusCodes, u8IntoStatusCodes c.toU8 = Except.ok c)
    ∧ (∀ c c2 : StatusCodes, c.toU8 = c2.toU8 → c = c2)
    ∧ (∀ n : Fin 100, n.val ∈ definedCodes →
        ∃ c : StatusCodes, u8IntoStatusCodes n.val = Except.ok c ∧ c.toU8 = n.val)
    ∧ (∀ n : Fin 100, n.val ∉ definedCodes →
        u8IntoStatusCodes n.val = Except.error "unknown status code") := by
  refine ⟨by decide, by decide, by decide, by decide⟩

/-- Witness for C1: code 51 decodes to a variant with code 51, and code 12
(a two-digit integer outside the closed set) fails with the panic message. -/
theorem c1_statuscode_decode_closed_witness :
    (∃ c : StatusCodes, u8IntoStatusCodes 51 = Except.ok c ∧ StatusCodes.toU8 c = 51)
    ∧ u8IntoStatusCodes 12 = Except.error "unknown status code" :=
  ⟨c1_statuscode_decode_closed.2.2.1 ⟨51, by decide⟩ (by decide),
   c1_statuscode_decode_closed.2.2.2 ⟨12, by decide⟩ (by decide)⟩

/-- C7: `build_uri` prepends the scheme exactly when absent: the two concrete
instances of the spec, plus the general formula in both directions. -/
theorem c7_build_uri_scheme :
    build_uri "example.org" "/foo" = "gemini://example.org/foo\r\n"
    ∧ build_uri "gemini://example.org" "/foo" = "gemini://example.org/foo\r\n"
    ∧ (∀ h r : String, h.data.take 9 = "gemini://".data → build_uri h r = h ++ r ++ "\r\n")
    ∧ (∀ h r : String, h.data.take 9 ≠ "gemini://".data →
        build_uri h r = "gemini://" ++ h ++ r ++ "\r\n") := by
  refine ⟨by decide, by decide, ?_, ?_⟩
  · intro h r hp
    simp only [build_uri]
    rw [if_pos hp]
    rfl
  · intro h r hp
    simp only [build_uri]
    rw [if_neg hp]

/-- Witness for C7: both branches of the general formula at concrete hosts. -/
theorem c7_build_uri_scheme_witness :
    build_uri "gemini://x" "/y" = "gemini://x" ++ "/y" ++ "\r\n"
    ∧ build_uri "x" "/y" = "gemini://" ++ "x" ++ "/y" ++ "\r\n" :=
  ⟨c7_build_uri_scheme.2.2.1 "gemini://x" "/y" (by decide),
   c7_build_uri_scheme.2.2.2 "x" "/y" (by decide)⟩

/-- C9: `build_uri` is total (its type is `String → String → String`, no
error path exists) and performs no non-empty-host validation: for the empty
host and any resource it returns "gemini://" ++ resource ++ CRLF. -/
theorem c9_build_uri_empty_host :
    ∀ r : String, build_uri "" r = "gemini://" ++ r ++ "\r\n" := by
  intro r
  apply String.ext
  rw [build_uri_data]
  rw [if_neg (by decide)]
  simp [String.data_append, data_gemini, data_crlf, data_empty]

/-- C10: reading the body only appends to the body field — status and meta
are unchanged by `read_response_body` — and every header produced by
`read_response_header` has an empty body. -/
theorem c10_body_read_frame :
    (∀ (s : List Char) (resp : Response),
        (read_response_body s resp).1.status = resp.status
        ∧ (read_response_body s resp).1.meta = resp.meta
        ∧ (read_response_body s resp).1.body = resp.body ++ String.mk s)
    ∧ (∀ (s rest : List Char) (resp : Response),
        read_response_header s = Except.ok (resp, rest) → resp.body = "") := by
  constructor
  · intro s resp
    exact ⟨rfl, rfl, rfl⟩
  · intro s rest resp h
    simp only [read_response_header] at h
    split at h
    · split at h
      · split at h
        · split at h
          · simp only [Except.ok.injEq, Prod.mk.injEq] at h
            rw [← h.1]
          · cases h
        · cases h
      · cases h
    · cases h

/-- Witness for C10: the header decoded from "20 text/gmi\r\n" has an empty
body field. -/
theorem c10_body_read_frame_witness :
    (Response.mk StatusCodes.Success "text/gmi" "").body = "" :=
  c10_body_read_frame.2 ("20 text/gmi\r\n".data) []
    (Response.mk StatusCodes.Success "text/gmi" "") (by decide)

/-- C4 counterexample: the claim says a success header whose meta does not
begin with "text/" produces the outcome UnsupportedMediaType(meta), carrying
the meta text.  The refusal in the code is the assert panic with the fixed
message "I only know how to handle text MIME types": the outcome carries no
meta detail at all — the meta survives only in the response value held at
the panic. -/
theorem c4_counterexample :
    dispatch ("20 application/json\r\nhello".data) =
      Except.ok (Outcome.unsupportedMediaTypePanic,
        Response.mk StatusCodes.Success "application/json" "", "hello".data)
    ∧ Outcome.metaDetail Outcome.unsupportedMediaTypePanic = none := by
  refine ⟨by decide, by decide⟩

/-- C4 amended: for a success (status 20) header the dispatcher requires the
meta to begin with "text/": if it does not, the refusal is the
unsupported-media-type assert panic — a fixed message carrying no meta
detail, raised while the response value still holds the meta — and no body
bytes are consumed; if it does, the whole remaining transport is read as
the body text and printed.  Header bytes "20 text/gmi\r\n" followed by body
bytes "hello" yield the printed body "hello". -/
theorem c4_success_dispatch :
    (∀ (meta : String) (s : List Char), meta.data.take 5 ≠ "text/".data →
        handle_response_header (Response.mk StatusCodes.Success meta "") s =
          (Outcome.unsupportedMediaTypePanic, Response.mk StatusCodes.Success meta "", s))
    ∧ (∀ (meta : String) (s : List Char), meta.data.take 5 = "text/".data →
        handle_response_header (Response.mk StatusCodes.Success meta "") s =
          (Outcome.printedBody (String.mk s), Response.mk StatusCodes.Success meta (String.mk s),
           []))
    ∧ dispatch ("20 text/gmi\r\nhello".data) =
        Except.ok (Outcome.printedBody "hello",
          Response.mk StatusCodes.Success "text/gmi" "hello", []) := by
  refine ⟨?_, ?_, by decide⟩
  · intro meta s hm
    simp [handle_response_header, handle_success, hm]
  · intro meta s hm
    simp [handle_response_header, handle_success, read_response_body, hm]

/-- Witness for C4: a non-text success header is refused with the stream
untouched, and a text success header yields the full body. -/
theorem c4_success_dispatch_witness :
    handle_response_header (Response.mk StatusCodes.Success "application/json" "") ("hi".data) =
      (Outcome.unsupportedMediaTypePanic,
       Response.mk StatusCodes.Success "application/json" "", "hi".data)
    ∧ handle_response_header (Response.mk StatusCodes.Success "text/plain" "") ("hi".data) =
      (Outcome.printedBody "hi", Response.mk StatusCodes.Success "text/plain" "hi", []) :=
  ⟨c4_success_dispatch.1 "application/json" ("hi".data) (by decide),
   c4_success_dispatch.2.1 "text/plain" ("hi".data) (by decide)⟩

/-- C2 counterexample: status 41 (ServerUnavailable) lies in the
temporary-failure band, yet `handle_response_header` sends it to the
catch-all branch, producing the unhandled-status outcome that carries no
meta detail; and for header bytes "51 not found\r\n" the outcome is the
fixed "Page not found!" message, not a failure outcome carrying the meta
"not found". -/
theorem c2_counterexample :
    StatusCodes.ServerUnavailable ∈ failureBand
    ∧ (handle_response_header (Response.mk StatusCodes.ServerUnavailable "busy" "") ['x']).1 =
        Outcome.unhandledMsg StatusCodes.ServerUnavailable
    ∧ Outcome.metaDetail (handle_response_header
        (Response.mk StatusCodes.ServerUnavailable "busy" "") ['x']).1 = none
    ∧ dispatch ("51 not found\r\nrest".data) =
        Except.ok (Outcome.notFoundMsg,
          Response.mk StatusCodes.NotFound "not found" "", "rest".data)
    ∧ Outcome.metaDetail Outcome.notFoundMsg = none := by
  refine ⟨by decide, by decide, by decide, by decide, by decide⟩

/-- C2 amended: for every status in the failure bands (40-44, 50-53, 59,
60-62) the dispatcher leaves the stream unread and the response unchanged,
but the printed outcome carries the meta text only for statuses 40
(TemporaryFailure) and 50 (PermanentFailure); statuses 51 and 59 print
fixed messages without the meta, and every other failure-band status falls
to the unhandled-status branch.  For header bytes "51 not found\r\n"
followed by further bytes, the outcome is the fixed page-not-found message
and the trailing bytes are never read. -/
theorem c2_failure_band_dispatch :
    (∀ (st : StatusCodes) (meta : String) (s : List Char), st ∈ failureBand →
        (handle_response_header (Response.mk st meta "") s).2.2 = s
        ∧ (handle_response_header (Response.mk st meta "") s).2.1 = Response.mk st meta ""
        ∧ Outcome.metaDetail (handle_response_header (Response.mk st meta "") s).1 =
            (if st = StatusCodes.TemporaryFailure ∨ st = StatusCodes.PermanentFailure
             then some meta else none))
    ∧ dispatch ("51 not found\r\nrest".data) =
        Except.ok (Outcome.notFoundMsg,
          Response.mk StatusCodes.NotFound "not found" "", "rest".data) := by
  refine ⟨?_, by decide⟩
  intro st meta s hst
  cases st <;> simp_all [failureBand, handle_response_header, Outcome.metaDetail]

/-- Witness for C2: status 40 with meta "busy" and a one-byte body stream. -/
theorem c2_failure_band_dispatch_witness :
    (handle_response_header (Response.mk StatusCodes.TemporaryFailure "busy" "") ['x']).2.2 = ['x']
    ∧ (handle_response_header (Response.mk StatusCodes.TemporaryFailure "busy" "") ['x']).2.1 =
        Response.mk StatusCodes.TemporaryFailure "busy" ""
    ∧ Outcome.metaDetail (handle_response_header
        (Response.mk StatusCodes.TemporaryFailure "busy" "") ['x']).1 =
        (if StatusCodes.TemporaryFailure = StatusCodes.TemporaryFailure
            ∨ StatusCodes.TemporaryFailure = StatusCodes.PermanentFailure
         then some "busy" else none) :=
  c2_failure_band_dispatch.1 StatusCodes.TemporaryFailure "busy" ['x'] (by decide)

/-- C3 counterexample: a stream that closes before any newline terminates the
meta line does not make `read_response_header` fail — it returns a fully
populated header whose meta is the partial line. -/
theorem c3_counterexample :
    read_response_header ("51 not found".data) =
      Except.ok (Response.mk StatusCodes.NotFound "not found" "", []) := by decide

/-- C3 amended: if the stream closes before the 2 status bytes and the
following space have arrived (at most 2 bytes total), `read_response_header`
fails — via the space assertion, there being no distinct TruncatedHeader
error — and never returns a partially populated header; if the stream
closes directly after the space with no meta bytes, it fails via the
missing-line unwrap; but if at least one meta byte arrived and the stream
closes before a newline, it succeeds, returning the partial text as the
meta. -/
theorem c3_truncated_header :
    (∀ s : List Char, s.length ≤ 2 →
        read_response_header s = Except.error ReadError.spaceAssertFailed)
    ∧ read_response_header ("51 ".data) = Except.error ReadError.metaLineMissing
    ∧ (∀ t : List Char, t ≠ [] → '\n' ∉ t →
        read_response_header ('5' :: '1' :: ' ' :: t) =
          Except.ok (Response.mk StatusCodes.NotFound (String.mk t) "", [])) := by
  refine ⟨?_, by decide, ?_⟩
  · intro s hs
    have hd : s.drop 2 = [] := List.drop_of_length_le hs
    simp only [read_response_header, hd]
    rw [if_neg (by decide)]
  · intro t ht hn
    have hred : read_response_header ('5' :: '1' :: ' ' :: t) =
        (match readLine t with
         | some (meta, rest) => Except.ok (Response.mk StatusCodes.NotFound meta "", rest)
         | none => Except.error ReadError.metaLineMissing) := rfl
    rw [hred, readLine_no_newline t ht hn]

/-- Witness for C3: a one-byte stream fails at the space assertion, and the
newline-less stream "51 x" decodes to a header with meta "x". -/
theorem c3_truncated_header_witness :
    read_response_header ['5'] = Except.error ReadError.spaceAssertFailed
    ∧ read_response_header ('5' :: '1' :: ' ' :: "x".data) =
        Except.ok (Response.mk StatusCodes.NotFound (String.mk "x".data) "", []) :=
  ⟨c3_truncated_header.1 ['5'] (by decide),
   c3_truncated_header.2.2 ("x".data) (by decide) (by decide)⟩

/-- C5 counterexample: the status byte pair "+2" is not two ASCII digits,
yet the Rust parse function `parse::<u8>` accepts a leading plus sign, so
`read_response_header` fails with the unknown-status panic of the `into`
conversion, not with the status-parse failure the claim requires. -/
theorem c5_counterexample :
    read_response_header ("+2 x\n".data) = Except.error ReadError.unknownStatusPanic
    ∧ ReadError.unknownStatusPanic ≠ ReadError.statusParsePanic
    ∧ ('+'.isDigit && '2'.isDigit) = false := by
  refine ⟨by decide, by decide, by decide⟩

/-- C5 amended: for every 2-byte status field whose bytes are not both ASCII
digits, `read_response_header` always fails (never a silent default): with
the status-parse failure, except when the pair is a plus sign followed by a
digit, in which case the pair parses as the one-digit value — which is
never a defined code — and the failure is the unknown-status panic
instead. -/
theorem c5_malformed_status :
    ∀ (c1 c2 : Char) (t : List Char), (c1.isDigit && c2.isDigit) = false →
      read_response_header (c1 :: c2 :: ' ' :: t) =
        Except.error (if c1 = '+' ∧ c2.isDigit = true then ReadError.unknownStatusPanic
                      else ReadError.statusParsePanic) := by
  intro c1 c2 t h
  have hred : read_response_header (c1 :: c2 :: ' ' :: t) =
      (match parseU8 (String.mk [c1, c2]) with
       | some n =>
         (match u8IntoStatusCodes n with
          | Except.ok st =>
            (match readLine t with
             | some (meta, rest) => Except.ok (Response.mk st meta "", rest)
             | none => Except.error ReadError.metaLineMissing)
          | Except.error _ => Except.error ReadError.unknownStatusPanic)
       | none => Except.error ReadError.statusParsePanic) := rfl
  rw [hred]
  by_cases hp : c1 = '+'
  · subst hp
    by_cases hd : c2.isDigit = true
    · have hb := isDigit_toNat_bounds hd
      have h255 : c2.toNat - 48 ≤ 255 := by omega
      have hps : parseU8 (String.mk ['+', c2]) = some (c2.toNat - 48) := by
        simp [parseU8, hd, h255]
      have hv : c2.toNat - 48 ≤ 9 := by omega
      have hfin := u8Into_of_le_nine hv
      rw [hps]
      simp only [hfin]
      simp [hd]
    · have hd2 : c2.isDigit = false := by
        revert hd
        cases c2.isDigit <;> simp
      have hps : parseU8 (String.mk ['+', c2]) = none := by
        simp [parseU8, hd2]
      rw [hps]
      rw [if_neg (fun hc => hd hc.2)]
  · have hall : ([c1, c2].all Char.isDigit) = false := by
      simp only [List.all_cons, List.all_nil, Bool.and_true]
      exact h
    have hps : parseU8 (String.mk [c1, c2]) = none := by
      simp [parseU8, hp, hall]
    rw [hps]
    rw [if_neg (fun hc => hp hc.1)]

/-- Witness for C5: the non-digit pair "ab" fails with the status-parse
failure branch of the amended statement. -/
theorem c5_malformed_status_witness :
    read_response_header ('a' :: 'b' :: ' ' :: "x\n".data) =
      Except.error (if 'a' = '+' ∧ 'b'.isDigit = true then ReadError.unknownStatusPanic
                    else ReadError.statusParsePanic) :=
  c5_malformed_status 'a' 'b' ("x\n".data) (by decide)

/-- C6 counterexample: `build_uri` performs no validation and never fails —
its result type is `String` — so a host containing CR LF is embedded
verbatim, producing a corrupted request with two CR LF sequences instead
of a MalformedRequest error. -/
theorem c6_counterexample :
    build_uri "a\r\nb" "/x" = "gemini://a\r\nb/x\r\n"
    ∧ countCRLF ("gemini://a\r\nb/x\r\n").data = 2 := by
  refine ⟨by decide, by decide⟩

/-- C6 amended: the output of `build_uri` always ends with the two-byte
terminator CR LF, and when neither host nor resource contains CR or LF the
output contains exactly one CR LF (the terminator); but `build_uri` is
total and performs no CR/LF validation, so inputs containing CR or LF
yield a corrupted request rather than a MalformedRequest error. -/
theorem c6_request_terminator :
    (∀ h r : String, ∃ p : List Char, (build_uri h r).data = p ++ ['\r', '\n'])
    ∧ (∀ h r : String, '\r' ∉ h.data → '\n' ∉ h.data → '\r' ∉ r.data → '\n' ∉ r.data →
        countCRLF (build_uri h r).data = 1) := by
  constructor
  · intro h r
    refine ⟨(if h.data.take 9 = "gemini://".data then [] else "gemini://".data)
        ++ h.data ++ r.data, ?_⟩
    rw [build_uri_data]
  · intro h r hr1 hn1 hr2 hn2
    rw [build_uri_data]
    have hnr : '\r' ∉ ((if h.data.take 9 = "gemini://".data then ([] : List Char)
        else "gemini://".data) ++ h.data ++ r.data) := by
      intro hm
      rcases List.mem_append.mp hm with hm1 | hm1
      · rcases List.mem_append.mp hm1 with hm2 | hm2
        · by_cases hc : h.data.take 9 = "gemini://".data
          · rw [if_pos hc] at hm2
            exact List.not_mem_nil _ hm2
          · rw [if_neg hc, data_gemini] at hm2
            simp at hm2
        · exact hr1 hm2
      · exact hr2 hm1
    exact countCRLF_append_crlf _ hnr

/-- Witness for C6: the CR/LF-free host "example.org" and resource "/foo"
give an output with exactly one CR LF. -/
theorem c6_request_terminator_witness :
    countCRLF (build_uri "example.org" "/foo").data = 1 :=
  c6_request_terminator.2 "example.org" "/foo" (by decide) (by decide) (by decide) (by decide)

/-- C8 counterexample: `build_uri` is not injective on CR/LF-free pairs —
host "a/b" with resource "" and host "a" with resource "/b" build the same
request line — so the line-splitter returns ("a", "/b") for the line built
from ("a/b", ""), and no decoder whatsoever can round-trip both pairs. -/
theorem c8_counterexample :
    build_uri "a/b" "" = build_uri "a" "/b"
    ∧ splitRequest (build_uri "a/b" "") = some ("a", "/b")
    ∧ ¬((("a" : String), ("/b" : String)) = (("a/b" : String), ("" : String)))
    ∧ '\r' ∉ "a/b".data ∧ '\n' ∉ "a/b".data := by
  refine ⟨by decide, by decide, by decide, by decide, by decide⟩

/-- C8 amended: the round-trip holds once the host/resource split is
unambiguous: for every host containing no slash (hence no scheme prefix)
and no CR/LF, and every resource that is empty or starts with a slash and
contains no CR/LF, building the request line and splitting it yields back
exactly the host and the resource. -/
theorem c8_round_trip :
    ∀ (h r : String), '/' ∉ h.data → '\r' ∉ h.data → '\n' ∉ h.data →
      '\r' ∉ r.data → '\n' ∉ r.data → (r = "" ∨ r.data.take 1 = ['/']) →
      splitRequest (build_uri h r) = some (h, r) := by
  intro h r hs hr1 hn1 hr2 hn2 hwf
  have hscheme : h.data.take 9 ≠ "gemini://".data := by
    intro he
    have hmem : '/' ∈ h.data.take 9 := by
      rw [he, data_gemini]
      simp
    exact hs (List.take_subset 9 h.data hmem)
  have hb : (build_uri h r).data = ("gemini://".data ++ (h.data ++ r.data)) ++ ['\r', '\n'] := by
    rw [build_uri_data, if_neg hscheme]
    simp [List.append_assoc]
  rw [splitRequest_eq _ _ hb, stripSchemeGemini_append]
  have hall : ∀ a ∈ h.data, (fun c => decide (c ≠ '/')) a = true := by
    intro a ha
    simp only [decide_eq_true_eq]
    intro e
    exact hs (e ▸ ha)
  rw [takeWhile_append_all _ _ _ hall, dropWhile_append_all _ _ _ hall]
  rcases hwf with hre | hrs
  · subst hre
    simp only [data_empty, List.takeWhile_nil, List.dropWhile_nil, List.append_nil]
  · cases hd : r.data with
    | nil =>
      rw [hd] at hrs
      simp at hrs
    | cons a rest =>
      rw [hd] at hrs
      simp at hrs
      subst hrs
      have htw : List.takeWhile (fun c => decide (c ≠ '/')) ('/' :: rest) = [] := rfl
      have hdw : List.dropWhile (fun c => decide (c ≠ '/')) ('/' :: rest) = '/' :: rest := rfl
      rw [htw, hdw, List.append_nil, ← hd]

/-- Witness for C8: the slash-free host "example.org" with resource "/foo"
round-trips through build and split. -/
theorem c8_round_trip_witness :
    splitRequest (build_uri "example.org" "/foo") = some ("example.org", "/foo") :=
  c8_round_trip "example.org" "/foo" (by decide) (by decide) (by decide) (by decide) (by decide)
    (by decide)
